import Mathlib

/-!
Verification development for the document-viewer delivery protocol and
dispatch pipeline (`src/src/App.tsx` of codNow/react-doc-viewer).

The React component's protocol core is embedded shallowly:
* component state hooks (`useState`) become the `ViewerState` record;
* the external libraries (`docx-preview`'s `renderAsync`, `XLSX.read` +
  `sheet_to_json`) and the availability of the mount node `viewerRef.current`
  are parameters collected in `ExternalProcessors` (the spec treats them as
  external collaborators, specified only at their boundary);
* `JSON.parse` of the host bridge is an abstract `parse` parameter of the
  listener, since its error messages are produced by the JS engine;
* `window.atob` is modelled by `atob` below, following the WHATWG
  forgiving-base64 decode that `atob` implements;
* `postMessageToNative` calls are collected into an outbound message list;
* the request lifecycle (`Idle/Decoding/Processing/Ready/Error` of the spec)
  is recorded as a trace of the stages the code passes through:
  entering `loadFileFromBase64` up to the `atob` call is `Decoding`,
  a successful decode enters `Processing` (`processFile`), posting `LOADED`
  is `Ready`, and the `catch` block is `Error`.
-/

/-- `type FileType = 'word' | 'excel' | 'powerpoint' | ''` (App.tsx line 6);
`empty` stands for the empty-string member. -/
inductive FileType
  | word
  | excel
  | powerpoint
  | empty
deriving DecidableEq

/-- Outbound `NativeMessage` (App.tsx lines 12-16): the three shapes actually
posted are `{type:'READY'}`, `{type:'LOADED', fileName}', and
`{type:'WEB_ERROR', message}`. -/
inductive NativeMessage
  | ready
  | loaded (fileName : String)
  | webError (message : String)
deriving DecidableEq

/-- Processor kinds of the dispatch pipeline (spec §3 `ProcessorKind`).
The source dispatches on the file extension inside `processFile`. -/
inductive ProcKind
  | word
  | excel
  | powerpoint
  | unknown
deriving DecidableEq

/-- Spec §3 `LoadState` (`errored` is the spec's `Error` state). -/
inductive LoadState
  | idle
  | decoding
  | processing
  | ready (fileName : String)
  | errored (message : String)
deriving DecidableEq

/-- The `File` object built in `loadFileFromBase64` (App.tsx line 132):
a name plus the decoded bytes. -/
structure DocFile where
  name : String
  bytes : List Nat
deriving DecidableEq

/-- `ExcelSheetData` (App.tsx lines 8-10): sheet name to rows of cells
(cells are modelled as strings). -/
abbrev ExcelSheetData := List (String × List (List String))

/-- The component's `useState` hooks that the protocol core reads/writes
(App.tsx lines 33-37); `debugInfo` and `isEmbedded` are presentation-only
and omitted. -/
structure ViewerState where
  selectedFile : Option DocFile
  fileType : FileType
  isLoading : Bool
  error : String
  excelData : Option ExcelSheetData
deriving DecidableEq

/-- Initial hook values (App.tsx lines 33-37). -/
def initialState : ViewerState :=
  { selectedFile := none, fileType := .empty, isLoading := false,
    error := "", excelData := none }

/-- External collaborators consumed by the dispatch pipeline (spec §6):
`renderWord` is `renderAsync` of docx-preview, `excelRead` is
`XLSX.read` + `sheet_to_json`, `viewerAvailable` is whether
`viewerRef.current` is non-null. -/
structure ExternalProcessors where
  renderWord : List Nat → Except String Unit
  excelRead : List Nat → Except String ExcelSheetData
  viewerAvailable : Bool

/-- Decidable equality of `Except` results, for concrete evaluations. -/
instance {e a : Type} [DecidableEq e] [DecidableEq a] :
    DecidableEq (Except e a) := fun x y =>
  match x, y with
  | .ok v, .ok w =>
      if h : v = w then .isTrue (by rw [h]) else
        .isFalse (by intro hc; cases hc; exact h rfl)
  | .error v, .error w =>
      if h : v = w then .isTrue (by rw [h]) else
        .isFalse (by intro hc; cases hc; exact h rfl)
  | .ok _, .error _ => .isFalse (by intro hc; cases hc)
  | .error _, .ok _ => .isFalse (by intro hc; cases hc)

/-! ### String helpers (JS `String.prototype.includes`, `split('.')`) -/

/-- `startsWithCL p s`: `p` is a leading run of `s` (list-of-chars level). -/
def startsWithCL : List Char → List Char → Bool
  | [], _ => true
  | _ :: _, [] => false
  | p :: ps, c :: cs => p = c && startsWithCL ps cs

/-- `subListOf p s`: `p` occurs contiguously inside `s`. -/
def subListOf (p : List Char) : List Char → Bool
  | [] => p.isEmpty
  | c :: cs => startsWithCL p (c :: cs) || subListOf p cs

/-- JS `s.includes(pat)`. -/
def containsSub (s pat : String) : Bool :=
  subListOf pat.data s.data

/-- JS `String.prototype.split('.')` at the list-of-chars level: split on
every `'.'`, keeping empty components. -/
def splitOnDot : List Char → List (List Char)
  | [] => [[]]
  | c :: rest =>
    match splitOnDot rest with
    | [] => [[c]]
    | g :: gs => if c = '.' then [] :: g :: gs else (c :: g) :: gs

/-- `file.name.split('.').pop()?.toLowerCase()` (App.tsx line 153). -/
def fileExtensionOf (s : String) : String :=
  String.mk (((splitOnDot s.data).getLastD []).map Char.toLower)

/-- The format classification performed by `processFile`'s branch conditions
(App.tsx lines 157-167), factored as the spec's `classify`. -/
def classify (fileName : String) : ProcKind :=
  let e := fileExtensionOf fileName
  if e = "docx" ∨ e = "doc" then .word
  else if e = "xlsx" ∨ e = "xls" then .excel
  else if e = "pptx" ∨ e = "ppt" then .powerpoint
  else .unknown

/-! ### `window.atob`: WHATWG forgiving-base64 decode -/

/-- The base64 alphabet, in index order. -/
def b64Alphabet : List Char :=
  "ABCDEFGHIJKLMNOPQRSTUVWXYZabcdefghijklmnopqrstuvwxyz0123456789+/".data

/-- Character at sextet index `n` (default never reached for `n < 64`). -/
def b64CharOf (n : Nat) : Char := b64Alphabet.getD n 'A'

/-- Sextet index of an alphabet character. -/
def sextetOf (c : Char) : Nat := b64Alphabet.indexOf c

/-- Membership in the base64 alphabet. -/
def isB64Alpha (c : Char) : Bool := b64Alphabet.contains c

/-- ASCII whitespace removed by forgiving-base64 before decoding. -/
def isB64Ws (c : Char) : Bool :=
  c = ' ' || c = '\t' || c = '\n' || c = '\x0c' || c = '\r'

/-- Drop one trailing-`'='` marker from a *reversed* character list. -/
def dropOnePad : List Char → List Char
  | [] => []
  | c :: r => if c = '=' then r else c :: r

/-- Remove up to two trailing `'='` characters (forgiving-base64 step 2). -/
def stripPad (cs : List Char) : List Char :=
  (dropOnePad (dropOnePad cs.reverse)).reverse

/-- Reassemble bytes from sextets, 4 sextets to 3 bytes; trailing groups of
2 or 3 sextets yield 1 or 2 bytes, spare bits discarded (forgiving-base64). -/
def sextetsToBytes : List Nat → List Nat
  | s1 :: s2 :: s3 :: s4 :: rest =>
      (s1 * 4 + s2 / 16) :: ((s2 % 16) * 16 + s3 / 4) ::
        ((s3 % 4) * 64 + s4) :: sextetsToBytes rest
  | [s1, s2, s3] => [s1 * 4 + s2 / 16, (s2 % 16) * 16 + s3 / 4]
  | [s1, s2] => [s1 * 4 + s2 / 16]
  | [_] => []
  | [] => []

/-- The message `atob` throws with on a malformed input
(an `InvalidCharacterError`; the exact wording is engine-specific). -/
def invalidB64Msg : String :=
  "InvalidCharacterError: The string to be decoded is not correctly encoded."

/-- Forgiving-base64 decode on a character list: strip ASCII whitespace,
strip up to two `'='` when the length is a multiple of 4, reject a length
of 1 mod 4 and any character outside the alphabet, then reassemble bytes. -/
def atobChars (cs0 : List Char) : Except String (List Nat) :=
  let cs1 := cs0.filter (fun c => !isB64Ws c)
  let cs2 := if cs1.length % 4 = 0 then stripPad cs1 else cs1
  if cs2.length % 4 = 1 then .error invalidB64Msg
  else if cs2.all isB64Alpha then .ok (sextetsToBytes (cs2.map sextetOf))
  else .error invalidB64Msg

/-- `window.atob` (App.tsx line 121): decodes or throws. -/
def atob (s : String) : Except String (List Nat) := atobChars s.data

/-- Spec §4.2 name for the base64 acquisition step: it is `atob`. -/
def fromBase64 (s : String) : Except String (List Nat) := atob s

/-- Standard base64 encoding of a byte list (spec §8 `base64Encode`),
three bytes to four characters, `'='`-padded. -/
def encodeChars : List Nat → List Char
  | [] => []
  | [b1] => [b64CharOf (b1 / 4), b64CharOf (b1 % 4 * 16), '=', '=']
  | [b1, b2] =>
      [b64CharOf (b1 / 4), b64CharOf (b1 % 4 * 16 + b2 / 16),
       b64CharOf (b2 % 16 * 4), '=']
  | b1 :: b2 :: b3 :: rest =>
      b64CharOf (b1 / 4) :: b64CharOf (b1 % 4 * 16 + b2 / 16) ::
        b64CharOf (b2 % 16 * 4 + b3 / 64) :: b64CharOf (b3 % 64) ::
        encodeChars rest

/-- `base64Encode` of spec §8. -/
def base64Encode (bs : List Nat) : String := String.mk (encodeChars bs)

/-! ### Dispatch pipeline (App.tsx lines 151-223) -/

/-- `processWordDocument` (App.tsx lines 175-195): sets `fileType` to
`word` first, then renders into the mount node, throwing if the node is
missing or `renderAsync` fails. -/
def processWordDocument (ext : ExternalProcessors) (st : ViewerState)
    (file : DocFile) : ViewerState × Except String Unit :=
  let st1 : ViewerState := { st with fileType := .word }
  if ext.viewerAvailable then
    match ext.renderWord file.bytes with
    | .ok _ => (st1, .ok ())
    | .error e => (st1, .error e)
  else (st1, .error "Viewer container not available")

/-- `processExcelDocument` (App.tsx lines 197-218): sets `fileType` to
`excel` first, then reads the workbook and stores the sheet data. -/
def processExcelDocument (ext : ExternalProcessors) (st : ViewerState)
    (file : DocFile) : ViewerState × Except String Unit :=
  let st1 : ViewerState := { st with fileType := .excel }
  match ext.excelRead file.bytes with
  | .ok sheets => ({ st1 with excelData := some sheets }, .ok ())
  | .error e => (st1, .error e)

/-- `processPowerPointDocument` (App.tsx lines 220-223). -/
def processPowerPointDocument (st : ViewerState) : ViewerState :=
  { st with fileType := .powerpoint }

/-- `processFile` (App.tsx lines 151-173): dispatch on the lowercased last
extension; the unmatched branch throws `'Unsupported file type'`; the
`catch` only logs and rethrows the error unchanged. The middle component
records which external processors were entered. -/
def processFile (ext : ExternalProcessors) (st : ViewerState)
    (file : DocFile) : ViewerState × List ProcKind × Except String Unit :=
  let e := fileExtensionOf file.name
  if e = "docx" ∨ e = "doc" then
    let r := processWordDocument ext st file
    (r.1, [ProcKind.word], r.2)
  else if e = "xlsx" ∨ e = "xls" then
    let r := processExcelDocument ext st file
    (r.1, [ProcKind.excel], r.2)
  else if e = "pptx" ∨ e = "ppt" then
    (processPowerPointDocument st, [ProcKind.powerpoint], Except.ok ())
  else
    (st, [], Except.error "Unsupported file type")

/-! ### Request lifecycle (App.tsx lines 113-149) -/

/-- Result of running one load request to completion: final component
state, the messages posted to the host, the processors entered, and the
spec-level lifecycle stages traversed (after the initial `idle`). -/
structure LoadOutcome where
  state : ViewerState
  outbound : List NativeMessage
  invoked : List ProcKind
  trace : List LoadState
deriving DecidableEq

/-- `loadFileFromBase64` (App.tsx lines 113-149), run to completion:
clear error/excel state and set the loading flag, `atob` the payload
(`Decoding`), build the `File` and store it, `processFile` it
(`Processing`), then post `LOADED` (`Ready`); any thrown error is caught,
stored in `error`, posted as `WEB_ERROR` (`Error`), and the loading flag
is cleared in `finally`. -/
def loadFileFromBase64 (ext : ExternalProcessors) (st0 : ViewerState)
    (base64Data fileName : String) : LoadOutcome :=
  let st := { st0 with isLoading := true, error := "", excelData := none }
  match atob base64Data with
  | .error e =>
      ⟨{ st with error := e, isLoading := false }, [.webError e], [],
        [.decoding, .errored e]⟩
  | .ok bytes =>
      let file : DocFile := ⟨fileName, bytes⟩
      let st1 := { st with selectedFile := some file }
      match processFile ext st1 file with
      | (st2, invoked, .ok _) =>
          ⟨{ st2 with isLoading := false }, [.loaded fileName], invoked,
            [.decoding, .processing, .ready fileName]⟩
      | (st2, invoked, .error e) =>
          ⟨{ st2 with error := e, isLoading := false }, [.webError e], invoked,
            [.decoding, .processing, .errored e]⟩

/-- The shape of a successfully parsed inbound message
(`IncomingMessage`, App.tsx lines 18-22). -/
structure ParsedMessage where
  type : String
  fileData : String
  fileName : String
deriving DecidableEq

/-- `handleMessage` (App.tsx lines 76-106) over an abstract `parse`
standing for `JSON.parse`: raw strings containing the docx-preview noise
substrings are dropped before parsing; a parsed `LOAD_DOCUMENT` starts
`loadFileFromBase64`; other parsed messages are ignored; a parse error is
dropped when its message matches the noise allowlist and is otherwise
posted as `WEB_ERROR`. -/
def handleMessage (ext : ExternalProcessors)
    (parse : String → Except String ParsedMessage)
    (st : ViewerState) (raw : String) : LoadOutcome :=
  if containsSub raw "setImmediate" || containsSub raw "setImmedia" then
    ⟨st, [], [], []⟩
  else
    match parse raw with
    | .ok data =>
        if data.type = "LOAD_DOCUMENT" then
          loadFileFromBase64 ext st data.fileData data.fileName
        else ⟨st, [], [], []⟩
    | .error msg =>
        if containsSub msg "setImmediate" || containsSub msg "setImmedia" ||
            containsSub msg "not valid JSON" then
          ⟨st, [], [], []⟩
        else ⟨st, [.webError msg], [], []⟩

/-- `JSON.stringify` of the three outbound messages as posted by
`postMessageToNative` (App.tsx line 47), for payload strings that need no
JSON escaping. -/
def encodeNative : NativeMessage → String
  | .ready => "\x7b\"type\":\"READY\"\x7d"
  | .loaded fn => "\x7b\"type\":\"LOADED\",\"fileName\":\"" ++ fn ++ "\"\x7d"
  | .webError m => "\x7b\"type\":\"WEB_ERROR\",\"message\":\"" ++ m ++ "\"\x7d"

/-! ### Async phase split of a load request

`loadFileFromBase64` / `processFile` / the processors are `async`; a JS
async function runs synchronously up to its first `await`.  For a word or
excel document the synchronous part of a request runs through: the state
resets, `atob`, `setSelectedFile`, and the processor's leading
`setFileType`, and then suspends at `file.arrayBuffer()`; everything after
that point (the render / workbook read, the `LOADED` post, the `finally`)
runs when the awaited work completes.  PowerPoint and unsupported files
have no suspension inside the processor and are treated as completing
immediately.  This split lets two overlapping requests interleave. -/

/-- Synchronous part of one request, up to its suspension point (if any):
returns the state after the synchronous writes, the messages posted
synchronously, and the in-flight file when the request suspended. -/
structure Phase1Result where
  state : ViewerState
  outbound : List NativeMessage
  suspended : Option DocFile
deriving DecidableEq

/-- The synchronous part of `loadFileFromBase64` (App.tsx lines 113-136
up to the first `await` inside the chosen processor). -/
def loadPhase1 (st0 : ViewerState) (base64Data fileName : String) :
    Phase1Result :=
  let st := { st0 with isLoading := true, error := "", excelData := none }
  match atob base64Data with
  | .error e =>
      ⟨{ st with error := e, isLoading := false }, [.webError e], none⟩
  | .ok bytes =>
      let file : DocFile := ⟨fileName, bytes⟩
      let st1 := { st with selectedFile := some file }
      let e := fileExtensionOf fileName
      if e = "docx" ∨ e = "doc" then
        ⟨{ st1 with fileType := .word }, [], some file⟩
      else if e = "xlsx" ∨ e = "xls" then
        ⟨{ st1 with fileType := .excel }, [], some file⟩
      else if e = "pptx" ∨ e = "ppt" then
        ⟨{ st1 with fileType := .powerpoint, isLoading := false },
          [.loaded fileName], none⟩
      else
        ⟨{ st1 with error := "Unsupported file type", isLoading := false },
          [.webError "Unsupported file type"], none⟩

/-- The completion of a suspended request: the code after the
`file.arrayBuffer()` await (the render / workbook read, the stores, the
`LOADED` or `WEB_ERROR` post, the `finally`), applied to whatever the
component state is at completion time — the source consults no request
identity. -/
def loadPhase2 (ext : ExternalProcessors) (st0 : ViewerState)
    (file : DocFile) : ViewerState × List NativeMessage :=
  let e := fileExtensionOf file.name
  if e = "docx" ∨ e = "doc" then
    if ext.viewerAvailable then
      match ext.renderWord file.bytes with
      | .ok _ => ({ st0 with isLoading := false }, [.loaded file.name])
      | .error msg =>
          ({ st0 with error := msg, isLoading := false }, [.webError msg])
    else
      ({ st0 with error := "Viewer container not available",
                  isLoading := false },
        [.webError "Viewer container not available"])
  else if e = "xlsx" ∨ e = "xls" then
    match ext.excelRead file.bytes with
    | .ok sheets =>
        ({ st0 with excelData := some sheets, isLoading := false },
          [.loaded file.name])
    | .error msg =>
        ({ st0 with error := msg, isLoading := false }, [.webError msg])
  else (st0, [])

/-- Concrete external processors used in concrete runs: word rendering
succeeds, a workbook is read to one sheet with one cell per input byte. -/
def testExt : ExternalProcessors :=
  { renderWord := fun _ => .ok (),
    excelRead := fun bs => .ok [("sheet", [bs.map (fun _ => "cell")])],
    viewerAvailable := true }

/-- Concrete external processors whose word renderer (and workbook reader)
fail with the bare message `"boom"`, for concrete failure runs. -/
def wordFailExt : ExternalProcessors :=
  { renderWord := fun _ => .error "boom",
    excelRead := fun _ => .error "boom",
    viewerAvailable := true }

example : classify "Report.DOCX" = .word := by decide
example : classify "data.csv" = .unknown := by decide
example : classify "noext" = .unknown := by decide
example : classify "docx" = .word := by decide
example : atob "AA==" = .ok [0] := by rfl
example : atob "AAA=" = .ok [0, 0] := by rfl
example : atob "not-base64!!" = .error invalidB64Msg := by rfl
example : fromBase64 (base64Encode [72, 105, 33]) = .ok [72, 105, 33] := by
  rfl

/-! ## C2 — noise inputs produce no transition and no outbound message -/

/-- C2: an inbound raw string matching the noise allowlist (it contains
`"setImmediate"` or `"setImmedia"`) is dropped by `handleMessage` before
parsing: the state is unchanged, nothing is posted (in particular no
`WEB_ERROR`), and no lifecycle transition happens. -/
theorem c2_noise_no_effect (ext : ExternalProcessors)
    (parse : String → Except String ParsedMessage) (st : ViewerState)
    (raw : String)
    (h : (containsSub raw "setImmediate" || containsSub raw "setImmedia")
      = true) :
    handleMessage ext parse st raw = ⟨st, [], [], []⟩ := by
  simp [handleMessage, h]

/-- Concrete parse function that always fails, to show the noise filter
fires before parsing can even be attempted. -/
def alwaysFailParse : String → Except String ParsedMessage :=
  fun _ => .error "boom"

/-- Witness for C2 at the concrete noise string logged by docx-preview. -/
theorem c2_noise_no_effect_witness :
    (containsSub "ReferenceError: setImmediate is not defined" "setImmediate"
        || containsSub "ReferenceError: setImmediate is not defined"
          "setImmedia") = true ∧
    handleMessage testExt alwaysFailParse initialState
        "ReferenceError: setImmediate is not defined" =
      ⟨initialState, [], [], []⟩ :=
  ⟨by decide,
    c2_noise_no_effect testExt alwaysFailParse initialState
      "ReferenceError: setImmediate is not defined" (by decide)⟩

/-! ## C3 — a non-noise decode error is posted as `WEB_ERROR` -/

/-- C3: when an inbound raw string is not noise, fails to parse, and the
parse failure's message is not on the noise allowlist either, the listener
posts exactly `WEB_ERROR` carrying that message and performs no state
transition. -/
theorem c3_decode_error_posts_webError (ext : ExternalProcessors)
    (parse : String → Except String ParsedMessage) (st : ViewerState)
    (raw msg : String)
    (hraw : (containsSub raw "setImmediate" || containsSub raw "setImmedia")
      = false)
    (hp : parse raw = .error msg)
    (hmsg : (containsSub msg "setImmediate" || containsSub msg "setImmedia"
        || containsSub msg "not valid JSON") = false) :
    handleMessage ext parse st raw = ⟨st, [.webError msg], [], []⟩ := by
  simp [handleMessage, hraw, hp, hmsg]

/-- Concrete parse failure with a Firefox-style malformed-JSON message
(which does not contain `"not valid JSON"`). -/
def badJsonParse : String → Except String ParsedMessage :=
  fun _ => .error "JSON.parse: unexpected character at line 1 column 1"

/-- Witness for C3 at a concrete malformed inbound string. -/
theorem c3_decode_error_posts_webError_witness :
    (containsSub "<malformed>" "setImmediate" ||
      containsSub "<malformed>" "setImmedia") = false ∧
    badJsonParse "<malformed>" =
      .error "JSON.parse: unexpected character at line 1 column 1" ∧
    (containsSub "JSON.parse: unexpected character at line 1 column 1"
        "setImmediate" ||
      containsSub "JSON.parse: unexpected character at line 1 column 1"
        "setImmedia" ||
      containsSub "JSON.parse: unexpected character at line 1 column 1"
        "not valid JSON") = false ∧
    handleMessage testExt badJsonParse initialState "<malformed>" =
      ⟨initialState,
        [.webError "JSON.parse: unexpected character at line 1 column 1"],
        [], []⟩ :=
  ⟨by decide, rfl, by decide,
    c3_decode_error_posts_webError testExt badJsonParse initialState
      "<malformed>" "JSON.parse: unexpected character at line 1 column 1"
      (by decide) rfl (by decide)⟩

/-! ## C4 — the classifier -/

/-- C4 counterexample: the fileName `"docx"` contains no `'.'` — it has no
extension — yet it classifies as `word`, not `unknown`, because the source
takes the last component of `split('.')`, which is the whole name when
there is no dot. -/
theorem c4_counterexample :
    classify "docx" = ProcKind.word ∧ ("docx".data.contains '.') = false := by
  decide

/-- Modelled from the amended claim's words: lowercase the last
`'.'`-separated component of the fileName (the whole name when it contains
no `'.'`) and map it through the extension table. -/
def classifyTable (fileName : String) : ProcKind :=
  match String.mk
      (((splitOnDot fileName.data).getLastD []).map Char.toLower) with
  | "docx" | "doc" => .word
  | "xlsx" | "xls" => .excel
  | "pptx" | "ppt" => .powerpoint
  | _ => .unknown

/-- C4 (amended): `classify` is the pure total deterministic function that
lowercases the last `'.'`-separated component of the fileName (the whole
name when there is no `'.'`) and maps docx/doc to Word, xlsx/xls to Excel,
pptx/ppt to PowerPoint, and anything else to Unknown; the claimed examples
`classify "Report.DOCX" = word`, `classify "data.csv" = unknown`,
`classify "noext" = unknown` all hold. -/
theorem c4_classify_characterisation :
    (∀ fn : String, classify fn = classifyTable fn) ∧
    classify "Report.DOCX" = ProcKind.word ∧
    classify "data.csv" = ProcKind.unknown ∧
    classify "noext" = ProcKind.unknown := by
  refine ⟨fun fn => ?_, by decide, by decide, by decide⟩
  unfold classify classifyTable fileExtensionOf
  generalize String.mk (((splitOnDot fn.data).getLastD []).map Char.toLower)
    = e
  by_cases h1 : e = "docx" <;> by_cases h2 : e = "doc" <;>
    by_cases h3 : e = "xlsx" <;> by_cases h4 : e = "xls" <;>
    by_cases h5 : e = "pptx" <;> by_cases h6 : e = "ppt" <;>
    simp_all

/-! ## C5 — unknown kind fails immediately, no processor invoked -/

/-- C5: a payload whose fileName classifies as `unknown` makes `processFile`
fail at once with the unsupported-format error, entering no external
processor and leaving the state untouched. -/
theorem c5_unknown_never_dispatches (ext : ExternalProcessors)
    (st : ViewerState) (file : DocFile)
    (h : classify file.name = ProcKind.unknown) :
    processFile ext st file = (st, [], .error "Unsupported file type") := by
  simp only [classify] at h
  simp only [processFile]
  by_cases h1 : fileExtensionOf file.name = "docx" ∨
      fileExtensionOf file.name = "doc"
  · simp [h1] at h
  · by_cases h2 : fileExtensionOf file.name = "xlsx" ∨
        fileExtensionOf file.name = "xls"
    · simp [h1, h2] at h
    · by_cases h3 : fileExtensionOf file.name = "pptx" ∨
          fileExtensionOf file.name = "ppt"
      · simp [h1, h2, h3] at h
      · simp [h1, h2, h3]

/-- Witness for C5 at `data.csv`. -/
theorem c5_unknown_never_dispatches_witness :
    classify "data.csv" = ProcKind.unknown ∧
    processFile testExt initialState ⟨"data.csv", [1, 2]⟩ =
      (initialState, [], .error "Unsupported file type") :=
  ⟨by decide,
    c5_unknown_never_dispatches testExt initialState ⟨"data.csv", [1, 2]⟩
      (by decide)⟩

/-! ## C10 — `fileType` is set to the new kind and not rolled back -/

/-- The renderer-selection value each processor kind writes. -/
def fileTypeOfKind : ProcKind → FileType
  | .word => .word
  | .excel => .excel
  | .powerpoint => .powerpoint
  | .unknown => .empty

/-- The word processor writes `fileType := word` before rendering, so the
write survives any rendering failure. -/
theorem processWordDocument_fileType (ext : ExternalProcessors)
    (st : ViewerState) (file : DocFile) :
    (processWordDocument ext st file).1.fileType = FileType.word := by
  unfold processWordDocument
  by_cases hv : ext.viewerAvailable
  · simp only [hv, if_true]
    cases hr : ext.renderWord file.bytes <;> simp [hr]
  · simp [hv]

/-- The excel processor writes `fileType := excel` before reading the
workbook, so the write survives any read failure. -/
theorem processExcelDocument_fileType (ext : ExternalProcessors)
    (st : ViewerState) (file : DocFile) :
    (processExcelDocument ext st file).1.fileType = FileType.excel := by
  unfold processExcelDocument
  cases hr : ext.excelRead file.bytes <;> simp [hr]

/-- Dispatching a file of a recognised kind always leaves `fileType` at
that kind, successful or not. -/
theorem processFile_fileType (ext : ExternalProcessors) (st : ViewerState)
    (file : DocFile) (h : classify file.name ≠ ProcKind.unknown) :
    (processFile ext st file).1.fileType =
      fileTypeOfKind (classify file.name) := by
  simp only [classify] at h ⊢
  simp only [processFile]
  by_cases h1 : fileExtensionOf file.name = "docx" ∨
      fileExtensionOf file.name = "doc"
  · simp [h1, processWordDocument_fileType, fileTypeOfKind]
  · by_cases h2 : fileExtensionOf file.name = "xlsx" ∨
        fileExtensionOf file.name = "xls"
    · simp [h1, h2, processExcelDocument_fileType, fileTypeOfKind]
    · by_cases h3 : fileExtensionOf file.name = "pptx" ∨
          fileExtensionOf file.name = "ppt"
      · simp [h1, h2, h3, processPowerPointDocument, fileTypeOfKind]
      · simp [h1, h2, h3] at h

/-- C10: once the payload decodes, the visible renderer selection
(`fileType`) ends at the newly classified kind — also when processing
fails after classification, since the `catch` of `loadFileFromBase64`
never restores the pre-request `fileType`. -/
theorem c10_fileType_not_rolled_back (ext : ExternalProcessors)
    (st : ViewerState) (b64 fn : String) (bytes : List Nat)
    (hd : atob b64 = .ok bytes) (hk : classify fn ≠ ProcKind.unknown) :
    (loadFileFromBase64 ext st b64 fn).state.fileType =
      fileTypeOfKind (classify fn) := by
  simp only [loadFileFromBase64, hd]
  rcases hpf : processFile ext
      { st with isLoading := true, error := "", excelData := none,
                selectedFile := some ⟨fn, bytes⟩ } ⟨fn, bytes⟩
    with ⟨st2, invoked, r⟩
  have hft := processFile_fileType ext
    { st with isLoading := true, error := "", excelData := none,
              selectedFile := some ⟨fn, bytes⟩ } ⟨fn, bytes⟩ hk
  rw [hpf] at hft
  cases r <;> simp [hpf] <;> exact hft

/-- Witness for C10: a Word document whose render throws, starting from a
state that displayed an Excel document; `fileType` ends at `word`, the new
kind, not the pre-request `excel`. -/
theorem c10_fileType_not_rolled_back_witness :
    atob "AA==" = .ok [0] ∧
    classify "f.docx" ≠ ProcKind.unknown ∧
    (loadFileFromBase64 wordFailExt
        { initialState with fileType := .excel } "AA==" "f.docx").state.error
      = "boom" ∧
    (loadFileFromBase64 wordFailExt
        { initialState with fileType := .excel } "AA==" "f.docx").state.fileType
      = fileTypeOfKind (classify "f.docx") :=
  ⟨rfl, by decide, by decide,
    c10_fileType_not_rolled_back wordFailExt
      { initialState with fileType := .excel } "AA==" "f.docx" [0]
      rfl (by decide)⟩

/-! ## C6 — processor failures are rethrown raw, never wrapped -/

/-- C6 counterexample: the word renderer fails with the bare message
`"boom"`; the `Error` state and the outbound `WEB_ERROR` carry exactly
`"boom"` — the raw processor failure, with no wrapper and no processor
kind attached (it does not even mention `word`). -/
theorem c6_counterexample :
    (loadFileFromBase64 wordFailExt initialState "AA==" "f.docx").state.error
      = "boom" ∧
    (loadFileFromBase64 wordFailExt initialState "AA==" "f.docx").outbound
      = [.webError "boom"] ∧
    containsSub "boom" "word" = false ∧
    containsSub "boom" "Word" = false := by
  decide

/-- C6 (amended): a failure raised by an external processor during
dispatch is rethrown unchanged by `processFile`'s catch, and the `catch`
of `loadFileFromBase64` stores and posts exactly the raw underlying
message: the `Error` state and the outbound `WEB_ERROR` carry the
processor's message itself, with no `ProcessingError` wrapper and no
processor kind attached. -/
theorem c6_raw_failure_propagates (ext : ExternalProcessors)
    (st0 : ViewerState) (b64 fn : String) (bytes : List Nat)
    (st2 : ViewerState) (invoked : List ProcKind) (e : String)
    (hd : atob b64 = .ok bytes)
    (hp : processFile ext
        { { st0 with isLoading := true, error := "", excelData := none }
            with selectedFile := some ⟨fn, bytes⟩ } ⟨fn, bytes⟩ =
      (st2, invoked, .error e)) :
    (loadFileFromBase64 ext st0 b64 fn).state.error = e ∧
    (loadFileFromBase64 ext st0 b64 fn).outbound = [.webError e] := by
  refine ⟨?_, ?_⟩ <;>
    · simp only [loadFileFromBase64, hd]
      rw [hp]

/-- Witness for C6 (amended): the failing word renderer of `wordFailExt`. -/
theorem c6_raw_failure_propagates_witness :
    atob "AA==" = .ok [0] ∧
    processFile wordFailExt
        { { initialState with isLoading := true, error := "",
                              excelData := none }
            with selectedFile := some ⟨"f.docx", [0]⟩ }
        ⟨"f.docx", [0]⟩ =
      ({ selectedFile := some ⟨"f.docx", [0]⟩, fileType := .word,
         isLoading := true, error := "", excelData := none },
        [ProcKind.word], .error "boom") ∧
    (loadFileFromBase64 wordFailExt initialState "AA==" "f.docx").state.error
      = "boom" ∧
    (loadFileFromBase64 wordFailExt initialState "AA==" "f.docx").outbound
      = [.webError "boom"] :=
  ⟨rfl, by decide,
    (c6_raw_failure_propagates wordFailExt initialState "AA==" "f.docx" [0]
      { selectedFile := some ⟨"f.docx", [0]⟩, fileType := .word,
        isLoading := true, error := "", excelData := none }
      [ProcKind.word] "boom" rfl (by decide)).1,
    (c6_raw_failure_propagates wordFailExt initialState "AA==" "f.docx" [0]
      { selectedFile := some ⟨"f.docx", [0]⟩, fileType := .word,
        isLoading := true, error := "", excelData := none }
      [ProcKind.word] "boom" rfl (by decide)).2⟩

/-! ## C7 — invalid base64 drives Decoding to Error with a `WEB_ERROR` -/

/-- C7: every accepted `LOAD_DOCUMENT` whose `fileData` is not valid
base64 — any payload on which `atob` fails, such as `"not-base64!!"` —
fails in acquisition: from the idle state the request runs `Decoding`
then `Error`, the decode failure is stored, and a `WEB_ERROR` citing the
decode failure is posted. -/
theorem c7_invalid_base64_error (ext : ExternalProcessors)
    (parse : String → Except String ParsedMessage) (st : ViewerState)
    (raw data fn e : String)
    (hraw : (containsSub raw "setImmediate" || containsSub raw "setImmedia")
      = false)
    (hp : parse raw = .ok ⟨"LOAD_DOCUMENT", data, fn⟩)
    (hd : atob data = .error e) :
    handleMessage ext parse st raw =
      ⟨{ st with isLoading := false, error := e, excelData := none },
        [.webError e], [],
        [.decoding, .errored e]⟩ := by
  simp [handleMessage, hraw, hp, loadFileFromBase64, hd]

/-- Concrete parse function derived from the C7 scenario's inbound JSON. -/
def parseBadPayload : String → Except String ParsedMessage :=
  fun _ => .ok ⟨"LOAD_DOCUMENT", "not-base64!!", "a.docx"⟩

/-- Witness for C7 at the scenario's concrete payload `"not-base64!!"`
(invalid alphabet). -/
theorem c7_invalid_base64_error_witness :
    (containsSub "load-document" "setImmediate" ||
      containsSub "load-document" "setImmedia") = false ∧
    parseBadPayload "load-document" =
      .ok ⟨"LOAD_DOCUMENT", "not-base64!!", "a.docx"⟩ ∧
    atob "not-base64!!" = .error invalidB64Msg ∧
    handleMessage testExt parseBadPayload initialState "load-document" =
      ⟨{ initialState with isLoading := false, error := invalidB64Msg,
                           excelData := none },
        [.webError invalidB64Msg], [],
        [.decoding, .errored invalidB64Msg]⟩ :=
  ⟨by decide, rfl, rfl,
    c7_invalid_base64_error testExt parseBadPayload initialState
      "load-document" "not-base64!!" "a.docx" invalidB64Msg
      (by decide) rfl rfl⟩

/-! ## C8 — the valid-xlsx happy path -/

/-- C8: an inbound `LOAD_DOCUMENT` with fileName `"a.xlsx"` whose payload
decodes and whose workbook the spreadsheet processor reads successfully
drives, from the idle state, `Decoding` then `Processing` then
`Ready("a.xlsx")`, invokes only the excel processor, and posts exactly
`LOADED` with the request's own fileName — whose wire form is
`{"type":"LOADED","fileName":"a.xlsx"}`. -/
theorem c8_xlsx_happy_path (ext : ExternalProcessors)
    (parse : String → Except String ParsedMessage) (st : ViewerState)
    (raw data : String) (bytes : List Nat) (sheets : ExcelSheetData)
    (hraw : (containsSub raw "setImmediate" || containsSub raw "setImmedia")
      = false)
    (hp : parse raw = .ok ⟨"LOAD_DOCUMENT", data, "a.xlsx"⟩)
    (hd : atob data = .ok bytes)
    (hx : ext.excelRead bytes = .ok sheets) :
    handleMessage ext parse st raw =
      ⟨{ st with selectedFile := some ⟨"a.xlsx", bytes⟩, fileType := .excel,
                 isLoading := false, error := "", excelData := some sheets },
        [.loaded "a.xlsx"], [.excel],
        [.decoding, .processing, .ready "a.xlsx"]⟩ ∧
    encodeNative (.loaded "a.xlsx") =
      "\x7b\"type\":\"LOADED\",\"fileName\":\"a.xlsx\"\x7d" := by
  have he : fileExtensionOf "a.xlsx" = "xlsx" := rfl
  refine ⟨?_, rfl⟩
  simp [handleMessage, hraw, hp, loadFileFromBase64, hd, processFile, he,
    processExcelDocument, hx]

/-- Concrete parse function derived from the C8 scenario's inbound JSON
(payload `"AA=="`, one zero byte standing in for the xlsx bytes). -/
def parseXlsxPayload : String → Except String ParsedMessage :=
  fun _ => .ok ⟨"LOAD_DOCUMENT", "AA==", "a.xlsx"⟩

/-- Witness for C8 at a concrete inbound message against `testExt`. -/
theorem c8_xlsx_happy_path_witness :
    (containsSub "load-document" "setImmediate" ||
      containsSub "load-document" "setImmedia") = false ∧
    parseXlsxPayload "load-document" =
      .ok ⟨"LOAD_DOCUMENT", "AA==", "a.xlsx"⟩ ∧
    atob "AA==" = .ok [0] ∧
    testExt.excelRead [0] = .ok [("sheet", [["cell"]])] ∧
    (handleMessage testExt parseXlsxPayload initialState "load-document" =
      ⟨{ initialState with selectedFile := some ⟨"a.xlsx", [0]⟩,
                           fileType := .excel, isLoading := false,
                           error := "", excelData := some [("sheet", [["cell"]])] },
        [.loaded "a.xlsx"], [.excel],
        [.decoding, .processing, .ready "a.xlsx"]⟩ ∧
      encodeNative (.loaded "a.xlsx") =
        "\x7b\"type\":\"LOADED\",\"fileName\":\"a.xlsx\"\x7d") :=
  ⟨by decide, rfl, rfl, rfl,
    c8_xlsx_happy_path testExt parseXlsxPayload initialState "load-document"
      "AA==" [0] [("sheet", [["cell"]])] (by decide) rfl rfl rfl⟩

/-! ## C1 — there is no sequence guard: stale completions still apply -/

/-- Overlap scenario, request #1 accepted: fileName `"a.xlsx"`, payload
`"AA=="` (one byte); it suspends awaiting its workbook read. -/
def overlapP1a : Phase1Result := loadPhase1 initialState "AA==" "a.xlsx"

/-- Request #2 accepted while #1 is suspended: fileName `"b.xlsx"`,
payload `"AAA="` (two bytes). -/
def overlapP1b : Phase1Result := loadPhase1 overlapP1a.state "AAA=" "b.xlsx"

/-- Request #2 completes first: the state reaches `Ready` for `"b.xlsx"`. -/
def overlapDone2 : ViewerState × List NativeMessage :=
  loadPhase2 testExt overlapP1b.state (overlapP1b.suspended.getD ⟨"", []⟩)

/-- Request #1's stale completion resolves last, applied to the state in
which #2 is already `Ready`. -/
def overlapDone1 : ViewerState × List NativeMessage :=
  loadPhase2 testExt overlapDone2.1 (overlapP1a.suspended.getD ⟨"", []⟩)

/-- C1 counterexample: in the overlap scenario, request #2 reaches `Ready`
for `"b.xlsx"` (its sheet data visible, `LOADED b.xlsx` posted), and then
request #1's stale completion is *not* discarded: it posts its own
`LOADED a.xlsx` and overwrites the visible sheet data with request #1's,
so the observable state does not remain that of `"b.xlsx"`. -/
theorem c1_counterexample :
    overlapP1a.suspended = some ⟨"a.xlsx", [0]⟩ ∧
    overlapP1b.suspended = some ⟨"b.xlsx", [0, 0]⟩ ∧
    overlapDone2.2 = [.loaded "b.xlsx"] ∧
    overlapDone2.1.excelData = some [("sheet", [["cell", "cell"]])] ∧
    overlapDone1.2 = [.loaded "a.xlsx"] ∧
    overlapDone1.1.excelData = some [("sheet", [["cell"]])] ∧
    overlapDone1.1.excelData ≠ overlapDone2.1.excelData := by
  decide

/-- C1 (amended): the source consults no request identity, so a completion
always applies in full to whatever the component state is at completion
time: an excel request whose workbook read succeeds stores its sheet data
and posts its `LOADED` against *any* current state — in particular against
a state in which a later request is already `Ready`. The last completion
wins, not the last accepted request. -/
theorem c1_no_sequence_guard (ext : ExternalProcessors) (st : ViewerState)
    (f : DocFile) (sheets : ExcelSheetData)
    (hx : fileExtensionOf f.name = "xlsx" ∨ fileExtensionOf f.name = "xls")
    (hr : ext.excelRead f.bytes = .ok sheets) :
    loadPhase2 ext st f =
      ({ st with excelData := some sheets, isLoading := false },
        [.loaded f.name]) := by
  have hw : ¬(fileExtensionOf f.name = "docx" ∨
      fileExtensionOf f.name = "doc") := by
    rcases hx with h | h <;> simp [h]
  simp [loadPhase2, hw, hx, hr]

/-- Witness for C1 (amended), instantiated at the very state of the
overlap scenario in which request #2 is `Ready` for `"b.xlsx"`: the stale
request #1 still rewrites the state and posts `LOADED a.xlsx`. -/
theorem c1_no_sequence_guard_witness :
    (fileExtensionOf "a.xlsx" = "xlsx" ∨ fileExtensionOf "a.xlsx" = "xls") ∧
    testExt.excelRead [0] = .ok [("sheet", [["cell"]])] ∧
    loadPhase2 testExt overlapDone2.1 ⟨"a.xlsx", [0]⟩ =
      ({ overlapDone2.1 with excelData := some [("sheet", [["cell"]])],
                             isLoading := false },
        [.loaded "a.xlsx"]) :=
  ⟨Or.inl rfl, rfl,
    c1_no_sequence_guard testExt overlapDone2.1 ⟨"a.xlsx", [0]⟩
      [("sheet", [["cell"]])] (Or.inl rfl) rfl⟩

/-! ## C9 — base64 round trip -/

/-- The unpadded body of the standard base64 encoding. -/
def bodyChars : List Nat → List Char
  | [] => []
  | [b1] => [b64CharOf (b1 / 4), b64CharOf (b1 % 4 * 16)]
  | [b1, b2] =>
      [b64CharOf (b1 / 4), b64CharOf (b1 % 4 * 16 + b2 / 16),
       b64CharOf (b2 % 16 * 4)]
  | b1 :: b2 :: b3 :: rest =>
      b64CharOf (b1 / 4) :: b64CharOf (b1 % 4 * 16 + b2 / 16) ::
        b64CharOf (b2 % 16 * 4 + b3 / 64) :: b64CharOf (b3 % 64) ::
        bodyChars rest

/-- The `'='` padding of the standard base64 encoding. -/
def padCharsOf : List Nat → List Char
  | [] => []
  | [_] => ['=', '=']
  | [_, _] => ['=']
  | _ :: _ :: _ :: rest => padCharsOf rest

/-- The encoding splits into its body followed by its padding. -/
theorem encodeChars_eq_body_pad :
    ∀ B : List Nat, encodeChars B = bodyChars B ++ padCharsOf B
  | [] => rfl
  | [_] => rfl
  | [_, _] => rfl
  | b1 :: b2 :: b3 :: rest => by
      simp [encodeChars, bodyChars, padCharsOf,
        encodeChars_eq_body_pad rest]

/-- For sextet values, the alphabet character is in the alphabet, is not
the padding character, and is not whitespace. -/
theorem b64CharOf_props : ∀ n, n < 64 →
    isB64Alpha (b64CharOf n) = true ∧ b64CharOf n ≠ '=' ∧
      isB64Ws (b64CharOf n) = false := by
  decide

/-- Decoding inverts the alphabet on sextet values. -/
theorem sextetOf_b64CharOf : ∀ n, n < 64 → sextetOf (b64CharOf n) = n := by
  decide

/-- Every body character is an alphabet character of some sextet value. -/
theorem bodyChars_mem : ∀ B : List Nat, (∀ b ∈ B, b < 256) →
    ∀ c ∈ bodyChars B, ∃ n, n < 64 ∧ c = b64CharOf n
  | [], _ => by simp [bodyChars]
  | [b1], h => by
      have hb1 : b1 < 256 := h b1 (by simp)
      intro c hc
      simp only [bodyChars, List.mem_cons, List.not_mem_nil, or_false]
        at hc
      rcases hc with rfl | rfl
      · exact ⟨b1 / 4, by omega, rfl⟩
      · exact ⟨b1 % 4 * 16, by omega, rfl⟩
  | [b1, b2], h => by
      have hb1 : b1 < 256 := h b1 (by simp)
      have hb2 : b2 < 256 := h b2 (by simp)
      intro c hc
      simp only [bodyChars, List.mem_cons, List.not_mem_nil, or_false]
        at hc
      rcases hc with rfl | rfl | rfl
      · exact ⟨b1 / 4, by omega, rfl⟩
      · exact ⟨b1 % 4 * 16 + b2 / 16, by omega, rfl⟩
      · exact ⟨b2 % 16 * 4, by omega, rfl⟩
  | b1 :: b2 :: b3 :: rest, h => by
      have hb1 : b1 < 256 := h b1 (by simp)
      have hb2 : b2 < 256 := h b2 (by simp)
      have hb3 : b3 < 256 := h b3 (by simp)
      have hrest : ∀ b ∈ rest, b < 256 := fun b hb => h b (by simp [hb])
      intro c hc
      simp only [bodyChars, List.mem_cons] at hc
      rcases hc with rfl | rfl | rfl | rfl | hmem
      · exact ⟨b1 / 4, by omega, rfl⟩
      · exact ⟨b1 % 4 * 16 + b2 / 16, by omega, rfl⟩
      · exact ⟨b2 % 16 * 4 + b3 / 64, by omega, rfl⟩
      · exact ⟨b3 % 64, by omega, rfl⟩
      · exact bodyChars_mem rest hrest c hmem

/-- No body character is the padding character. -/
theorem bodyChars_ne_pad (B : List Nat) (h : ∀ b ∈ B, b < 256) :
    ∀ c ∈ bodyChars B, c ≠ '=' := by
  intro c hc
  obtain ⟨n, hn, rfl⟩ := bodyChars_mem B h c hc
  exact (b64CharOf_props n hn).2.1

/-- Every body character is in the alphabet. -/
theorem bodyChars_alpha (B : List Nat) (h : ∀ b ∈ B, b < 256) :
    (bodyChars B).all isB64Alpha = true := by
  rw [List.all_eq_true]
  intro c hc
  obtain ⟨n, hn, rfl⟩ := bodyChars_mem B h c hc
  exact (b64CharOf_props n hn).1

/-- The padding is empty, one `'='`, or two `'='`. -/
theorem padCharsOf_shape : ∀ B : List Nat,
    padCharsOf B = [] ∨ padCharsOf B = ['='] ∨ padCharsOf B = ['=', '=']
  | [] => Or.inl rfl
  | [_] => Or.inr (Or.inr rfl)
  | [_, _] => Or.inr (Or.inl rfl)
  | _ :: _ :: _ :: rest => padCharsOf_shape rest

/-- No padding character is whitespace. -/
theorem padCharsOf_no_ws (B : List Nat) :
    ∀ c ∈ padCharsOf B, isB64Ws c = false := by
  intro c hc
  rcases padCharsOf_shape B with hs | hs | hs <;> rw [hs] at hc
  · exact absurd hc (List.not_mem_nil c)
  · simp only [List.mem_singleton] at hc
    subst hc; decide
  · simp only [List.mem_cons, List.not_mem_nil, or_false] at hc
    rcases hc with rfl | rfl <;> decide

/-- The encoding contains no whitespace, so `atob`'s whitespace filter
leaves it unchanged. -/
theorem encodeChars_filter (B : List Nat) (h : ∀ b ∈ B, b < 256) :
    (encodeChars B).filter (fun c => !isB64Ws c) = encodeChars B := by
  rw [List.filter_eq_self]
  intro c hc
  rw [encodeChars_eq_body_pad] at hc
  rcases List.mem_append.mp hc with h1 | h1
  · obtain ⟨n, hn, rfl⟩ := bodyChars_mem B h c h1
    simp [(b64CharOf_props n hn).2.2]
  · simp [padCharsOf_no_ws B c h1]

/-- The encoding's length is a multiple of 4. -/
theorem encodeChars_len_mod : ∀ B : List Nat, (encodeChars B).length % 4 = 0
  | [] => rfl
  | [_] => by simp [encodeChars]
  | [_, _] => by simp [encodeChars]
  | _ :: _ :: _ :: rest => by
      have := encodeChars_len_mod rest
      simp only [encodeChars, List.length_cons]
      omega

/-- The body's length is never 1 mod 4. -/
theorem bodyChars_len_mod : ∀ B : List Nat,
    (bodyChars B).length % 4 = 0 ∨ (bodyChars B).length % 4 = 2 ∨
      (bodyChars B).length % 4 = 3
  | [] => Or.inl rfl
  | [_] => Or.inr (Or.inl (by simp [bodyChars]))
  | [_, _] => Or.inr (Or.inr (by simp [bodyChars]))
  | _ :: _ :: _ :: rest => by
      have := bodyChars_len_mod rest
      simp only [bodyChars, List.length_cons]
      omega

/-- Stripping up to two trailing `'='` from a pad-free body followed by a
padding of at most two `'='` recovers the body. -/
theorem stripPad_append_pad (body pad : List Char)
    (hb : ∀ c ∈ body, c ≠ '=')
    (hp : pad = [] ∨ pad = ['='] ∨ pad = ['=', '=']) :
    stripPad (body ++ pad) = body := by
  have hone : dropOnePad body.reverse = body.reverse := by
    cases hrev : body.reverse with
    | nil => rfl
    | cons hd tl =>
      have hhd : hd ≠ '=' := by
        apply hb
        rw [← List.mem_reverse, hrev]
        simp
      simp [dropOnePad, hhd]
  have hdrop : dropOnePad ('=' :: body.reverse) = body.reverse := by
    simp [dropOnePad]
  rcases hp with rfl | rfl | rfl
  · unfold stripPad
    rw [List.append_nil, hone, hone, List.reverse_reverse]
  · unfold stripPad
    rw [show (body ++ ['=']).reverse = '=' :: body.reverse by simp]
    rw [hdrop, hone, List.reverse_reverse]
  · unfold stripPad
    rw [show (body ++ ['=', '=']).reverse = '=' :: '=' :: body.reverse
      by simp]
    rw [show dropOnePad ('=' :: '=' :: body.reverse) = '=' :: body.reverse
      by simp [dropOnePad]]
    rw [hdrop, List.reverse_reverse]

/-- Reassembling the bytes of the decoded body recovers the input bytes. -/
theorem sextetsToBytes_body : ∀ B : List Nat, (∀ b ∈ B, b < 256) →
    sextetsToBytes ((bodyChars B).map sextetOf) = B
  | [], _ => rfl
  | [b1], h => by
      have hb1 : b1 < 256 := h b1 (by simp)
      have s1 := sextetOf_b64CharOf (b1 / 4) (by omega)
      have s2 := sextetOf_b64CharOf (b1 % 4 * 16) (by omega)
      simp only [bodyChars, List.map_cons, List.map_nil, s1, s2,
        sextetsToBytes]
      have e1 : b1 / 4 * 4 + b1 % 4 * 16 / 16 = b1 := by omega
      rw [e1]
  | [b1, b2], h => by
      have hb1 : b1 < 256 := h b1 (by simp)
      have hb2 : b2 < 256 := h b2 (by simp)
      have s1 := sextetOf_b64CharOf (b1 / 4) (by omega)
      have s2 := sextetOf_b64CharOf (b1 % 4 * 16 + b2 / 16) (by omega)
      have s3 := sextetOf_b64CharOf (b2 % 16 * 4) (by omega)
      simp only [bodyChars, List.map_cons, List.map_nil, s1, s2, s3,
        sextetsToBytes]
      have e1 : b1 / 4 * 4 + (b1 % 4 * 16 + b2 / 16) / 16 = b1 := by omega
      have e2 : (b1 % 4 * 16 + b2 / 16) % 16 * 16 + b2 % 16 * 4 / 4 = b2 :=
        by omega
      rw [e1, e2]
  | b1 :: b2 :: b3 :: rest, h => by
      have hb1 : b1 < 256 := h b1 (by simp)
      have hb2 : b2 < 256 := h b2 (by simp)
      have hb3 : b3 < 256 := h b3 (by simp)
      have hrest : ∀ b ∈ rest, b < 256 := fun b hb => h b (by simp [hb])
      have s1 := sextetOf_b64CharOf (b1 / 4) (by omega)
      have s2 := sextetOf_b64CharOf (b1 % 4 * 16 + b2 / 16) (by omega)
      have s3 := sextetOf_b64CharOf (b2 % 16 * 4 + b3 / 64) (by omega)
      have s4 := sextetOf_b64CharOf (b3 % 64) (by omega)
      simp only [bodyChars, List.map_cons, s1, s2, s3, s4, sextetsToBytes]
      have e1 : b1 / 4 * 4 + (b1 % 4 * 16 + b2 / 16) / 16 = b1 := by omega
      have e2 : (b1 % 4 * 16 + b2 / 16) % 16 * 16 +
          (b2 % 16 * 4 + b3 / 64) / 4 = b2 := by omega
      have e3 : (b2 % 16 * 4 + b3 / 64) % 4 * 64 + b3 % 64 = b3 := by omega
      rw [e1, e2, e3, sextetsToBytes_body rest hrest]

/-- C9: decoding the standard base64 encoding of any byte sequence with
`fromBase64` (the source's `atob`) yields exactly the input bytes. -/
theorem c9_base64_roundtrip (B : List Nat) (h : ∀ b ∈ B, b < 256) :
    fromBase64 (base64Encode B) = .ok B := by
  show atobChars (encodeChars B) = .ok B
  unfold atobChars
  simp only
  rw [encodeChars_filter B h]
  rw [if_pos (encodeChars_len_mod B)]
  rw [show stripPad (encodeChars B) = bodyChars B by
    rw [encodeChars_eq_body_pad]
    exact stripPad_append_pad _ _ (bodyChars_ne_pad B h) (padCharsOf_shape B)]
  rw [if_neg (by rcases bodyChars_len_mod B with h1 | h1 | h1 <;> omega)]
  rw [if_pos (bodyChars_alpha B h)]
  rw [sextetsToBytes_body B h]

/-- Witness for C9 at the byte sequence `[72, 101, 108, 108, 111]`. -/
theorem c9_base64_roundtrip_witness :
    (∀ b ∈ [72, 101, 108, 108, 111], b < 256) ∧
    fromBase64 (base64Encode [72, 101, 108, 108, 111]) =
      .ok [72, 101, 108, 108, 111] :=
  ⟨by decide, c9_base64_roundtrip [72, 101, 108, 108, 111] (by decide)⟩
